import Mathlib

/-!
# Verification of the `capture-template` capture pipeline

Shallow embedding of the core of the `capture-template` repository:

* `WebPageRenderer` (src/web-page-renderer.ts): the Nightmare-driven browser
  capture driver (`renderImage`, `renderPDF`, `preRenderCheck`);
* `WebServer` (src/web-server.ts): the ephemeral Express asset server
  (`getUrl`, `loadTemplateFile`, `start`, request routing);
* `TemplateWebServer` (src/template-web-server.ts): configuration loading and
  validation plus asset-server startup;
* `TemplateRenderer` (src/template-renderer.ts): the orchestrator state
  machine (`start`, `loadTemplate`, `unloadTemplate`, render operations).

Side-effecting browser operations are embedded as explicit action traces;
mutable object fields become explicit state records threaded through the
functions; JavaScript truthiness is modelled explicitly where the source
relies on it; the un-awaited `unloadTemplate()` call inside `loadTemplate`
is modelled by an explicit event-loop small-step machine.
-/

namespace CaptureTemplate

/-! ## JavaScript value model

The template configuration is obtained by `JSON.parse` and used dynamically
(`this.templateConfig` has type `any`, and is handed to the renderer as its
options object), so option fields are modelled as dynamic JavaScript values.
A field missing from the parsed object reads as `undef`. -/

inductive JsVal where
  | undef : JsVal
  | nullv : JsVal
  | boolean : Bool → JsVal
  | number : Int → JsVal
  | string : String → JsVal
  deriving DecidableEq, Repr

/-- JavaScript truthiness of a `JsVal`: `undefined`, `null`, `false`, `0`
and `""` are falsy, everything else is truthy. -/
def JsVal.truthy : JsVal → Bool
  | .undef => false
  | .nullv => false
  | .boolean b => b
  | .number n => n != 0
  | .string s => !s.isEmpty

/-- Embeds `typeof v === "string"` for a `JsVal`. -/
def JsVal.isString : JsVal → Bool
  | .string _ => true
  | _ => false

/-- JavaScript `a || b`: returns `a` when `a` is truthy, otherwise `b`. -/
def JsVal.jsOr (a b : JsVal) : JsVal :=
  if a.truthy then a else b

/-! ## DOM and page model

The in-page scripts evaluated by `renderImage`/`renderPDF` read
`body.scrollWidth`/`body.scrollHeight` and `getBoundingClientRect()` of the
element matched by a selector.  Client rectangles carry fractional pixel
coordinates, so they are modelled over `ℚ`; `Math.ceil` is `Int.ceil`.
Because element geometry depends on the current viewport (the reason for
the two-phase measurement), `rectAt` is indexed by the viewport size.
Selector arguments are forwarded verbatim to `document.querySelector`, so
the page observation functions take the raw dynamic value. -/

/-- A DOM client rectangle as returned by `getBoundingClientRect()`. -/
structure DomRect where
  left : ℚ
  top : ℚ
  right : ℚ
  bottom : ℚ
  deriving DecidableEq, Repr

/-- The crop rectangle handed to `nightmare.screenshot`, built in
`renderImage`'s second evaluate call:
`x = Math.ceil(rect.left)`, `y = Math.ceil(rect.top)`,
`height = Math.ceil(rect.bottom - rect.top)`,
`width = Math.ceil(rect.right - rect.left)`. -/
structure CropRect where
  x : Int
  y : Int
  height : Int
  width : Int
  deriving DecidableEq, Repr

/-- The ceil-rounding performed by the measurement script
(src/web-page-renderer.ts, second `evaluate` of `renderImage`). -/
def cropOf (r : DomRect) : CropRect :=
  { x := ⌈r.left⌉
    y := ⌈r.top⌉
    height := ⌈r.bottom - r.top⌉
    width := ⌈r.right - r.left⌉ }

/-- Abstract model of the loaded page's DOM, summarising exactly the
observations the in-page scripts make: body scroll size, presence of a
selector (`document.querySelector(sel)` non-null, which is also what
`nightmare.wait(sel)` polls for), and the client rectangle of the matched
element under a given viewport size. -/
structure Page where
  bodyScrollWidth : ℕ
  bodyScrollHeight : ℕ
  present : JsVal → Bool
  rectAt : ℕ → ℕ → JsVal → DomRect

/-! ## Browser capture driver (`WebPageRenderer`, src/web-page-renderer.ts)

Nightmare calls are queued and flushed in order by the awaited chain; the
embedding records them as an explicit action trace. -/

/-- One observable Nightmare operation issued during a render. -/
inductive BrowserAction where
  | goto (url : String)
  | wait (selector : JsVal)
  | evalBodySize (width height : ℕ)
  | setViewport (width height : ℕ)
  | evalRect (selector : JsVal) (rect : CropRect)
  | screenshot (path : String) (rect : CropRect)
  | pdf (path : String) (marginsType : ℕ) (pageWidth pageHeight : ℕ) (landscape : Bool)
  deriving DecidableEq, Repr

/-- Errors raised by the driver and the orchestrator. -/
inductive RenderError where
  /-- Error `'waitSelector' not specified in the options, ...` -/
  | usageNoWaitSelector
  /-- Error `WebPageRenderer: Nightmare headless browser is not instantiated, ...` -/
  | usageNotInstantiated
  /-- Error `TemplateRenderer is not started, please call 'start' to initiate.` -/
  | usageRendererNotStarted
  /-- Error `TemplateRenderer: No template is loaded, please call 'loadTemplate'.` -/
  | usageNoTemplateLoaded
  /-- Error `Template web server is not started, please call 'start'.`
  (thrown by `getTemplateConfig`). -/
  | usageWebServerNotStarted
  /-- Error `TypeError` from the non-null assertion `this.webServer!.getUrl()`. -/
  | webServerNullCrash
  /-- Error `nightmare.wait(selector)` timed out: the selector never appeared. -/
  | waitTimeout
  /-- An evaluate script crashed (`element.getBoundingClientRect()` on `null`). -/
  | evaluationError
  deriving DecidableEq, Repr

/-- Embeds `IRenderOptions` (src/web-page-renderer.ts): a `waitSelector` and an
optional `captureSelector`.  The orchestrator passes the parsed
`template.json` object for this parameter, so both fields are dynamic
values; a well-typed options object has `waitSelector = .string s` and
`captureSelector` either `.undef` (omitted) or `.string t`. -/
structure RenderOptions where
  waitSelector : JsVal
  captureSelector : JsVal
  deriving DecidableEq, Repr

/-- Embeds `WebPageRenderer`'s mutable field: `nightmare` is `null` until
`start` instantiates the headless browser. -/
structure WebPageRendererState where
  nightmareInstantiated : Bool
  deriving DecidableEq, Repr

namespace WebPageRenderer

/-- Embeds `WebPageRenderer.preRenderCheck` (src/web-page-renderer.ts): first
rejects a falsy `options.waitSelector`, then a non-instantiated
Nightmare. -/
def preRenderCheck (st : WebPageRendererState) (options : RenderOptions) :
    Except RenderError Unit :=
  if !options.waitSelector.truthy then
    .error .usageNoWaitSelector
  else if !st.nightmareInstantiated then
    .error .usageNotInstantiated
  else
    .ok ()

/-- Embeds `WebPageRenderer.renderImage` (src/web-page-renderer.ts lines 308-340).
Returns the trace of Nightmare actions issued, paired with the outcome.
The queued sequence is: `goto`, `wait(options.waitSelector)`, a first
`evaluate` reading the body scroll size, `viewport(bodyWidth, bodyHeight)`,
a second `evaluate` measuring the element matched by
`options.captureSelector || options.waitSelector` under the resized
viewport with `Math.ceil` rounding, and finally
`screenshot(outputFilePath, rect)`.  A usage error aborts before any
action; a wait timeout or a null element aborts the chain at that point. -/
def renderImage (st : WebPageRendererState) (webPageUrl outputFilePath : String)
    (options : RenderOptions) (page : Page) :
    List BrowserAction × Except RenderError Unit :=
  match preRenderCheck st options with
  | .error e => ([], .error e)
  | .ok () =>
    if !page.present options.waitSelector then
      ([.goto webPageUrl, .wait options.waitSelector], .error .waitTimeout)
    else
      let w := page.bodyScrollWidth
      let h := page.bodyScrollHeight
      let captureSelector := options.captureSelector.jsOr options.waitSelector
      if !page.present captureSelector then
        ([.goto webPageUrl, .wait options.waitSelector,
          .evalBodySize w h, .setViewport w h], .error .evaluationError)
      else
        let rect := cropOf (page.rectAt w h captureSelector)
        ([.goto webPageUrl, .wait options.waitSelector,
          .evalBodySize w h, .setViewport w h,
          .evalRect captureSelector rect,
          .screenshot outputFilePath rect], .ok ())

/-- Embeds `WebPageRenderer.renderPDF` (src/web-page-renderer.ts lines 345-375).
After the same precondition, navigation and wait, a single `evaluate`
reads the body scroll size, the viewport is resized to it, and
`nightmare.pdf` is invoked with the fixed print options
`marginsType: 0`, `pageSize: {width: 297000, height: 210000}` (microns),
`landscape: true`.  `options.captureSelector` is never read. -/
def renderPDF (st : WebPageRendererState) (webPageUrl outputFilePath : String)
    (options : RenderOptions) (page : Page) :
    List BrowserAction × Except RenderError Unit :=
  match preRenderCheck st options with
  | .error e => ([], .error e)
  | .ok () =>
    if !page.present options.waitSelector then
      ([.goto webPageUrl, .wait options.waitSelector], .error .waitTimeout)
    else
      let w := page.bodyScrollWidth
      let h := page.bodyScrollHeight
      ([.goto webPageUrl, .wait options.waitSelector,
        .evalBodySize w h, .setViewport w h,
        .pdf outputFilePath 0 297000 210000 true], .ok ())

end WebPageRenderer

/-! ## Ephemeral asset server (`WebServer`, src/web-server.ts) -/

/-- Boundary contract of the external Template Expander (`inflate-template`):
`find(logicalPath)` yields a file handle or nothing, `expand(handle)` yields
the expanded content.  The pipeline treats both as pure. -/
structure TemplateModel where
  find : String → Option ℕ
  expand : ℕ → String

/-- Splitting a character list at `/` separators; the accumulator holds
the current segment's characters in reverse. -/
def splitSlashAux : List Char → List Char → List String
  | [], acc => [String.mk acc.reverse]
  | c :: cs, acc =>
    if c = '/' then String.mk acc.reverse :: splitSlashAux cs []
    else splitSlashAux cs (c :: acc)

/-- Embeds JavaScript `url.split('/')`: splits the string at every `/`
character, keeping empty segments (so a leading `/` yields a leading empty
segment). -/
def splitSlash (url : String) : List String :=
  splitSlashAux url.data []

/-- Embeds `path.join(...url.split('/'))` on POSIX: join the segments with
the `/` path separator; `path.join` ignores empty segments, so the leading
`/` of a request URL disappears. -/
def fileSystemPathOf (url : String) : String :=
  String.intercalate "/" ((splitSlash url).filter (fun s => !s.isEmpty))

/-- Result of one `loadTemplateFile` call: the content sent in the
response, the file cache after the call, and the number of
`templateFile.expand()` invocations the call performed (0 on a cache hit,
1 otherwise). -/
structure LoadOutcome where
  content : String
  cache : List (String × String)
  expandCount : ℕ
  deriving DecidableEq, Repr

/-- An HTTP response of the asset server: `response.send(fileContent)` or
`response.sendStatus(404)`. -/
inductive HttpResponse where
  | content (body : String)
  | notFound
  deriving DecidableEq, Repr

namespace WebServer

/-- The fallthrough path of `loadTemplateFile` (cache miss): resolve the
file-system path, look the file up in the template, expand it, and store
the expansion in the cache (`cache[url] = expandedFileContent`). -/
def loadTemplateFileExpand (template : TemplateModel)
    (cache : List (String × String)) (url : String) : Except String LoadOutcome :=
  match template.find (fileSystemPathOf url) with
  | none => .error ("Couldn't find file '" ++ url ++ "' in template.")
  | some templateFile =>
    .ok { content := template.expand templateFile
          cache := (url, template.expand templateFile) :: cache
          expandCount := 1 }

/-- Embeds `WebServer.loadTemplateFile` (src/web-server.ts lines 102-116).  The
cache hit test is `if (cachedFileContent)` — JavaScript truthiness — so an
entry holding the empty string is treated as absent and the file is
expanded again. -/
def loadTemplateFile (template : TemplateModel)
    (cache : List (String × String)) (url : String) : Except String LoadOutcome :=
  match cache.lookup url with
  | some cachedFileContent =>
    if !cachedFileContent.isEmpty then
      .ok { content := cachedFileContent, cache := cache, expandCount := 0 }
    else
      loadTemplateFileExpand template cache url
  | none => loadTemplateFileExpand template cache url

/-- The single catch-all request handler registered by `WebServer.start`
(src/web-server.ts lines 128-143): a GET to `/` is rewritten to
`index.html`, any other URL is served via `loadTemplateFile`; an error is
logged and answered with status 404, leaving the cache unchanged. -/
def handleRequest (template : TemplateModel) (cache : List (String × String))
    (requestUrl : String) : HttpResponse × List (String × String) × ℕ :=
  let fileName := if requestUrl = "/" then "index.html" else requestUrl
  match loadTemplateFile template cache fileName with
  | .ok out => (.content out.content, out.cache, out.expandCount)
  | .error _ => (.notFound, cache, 0)

end WebServer

/-- Embeds `WebServer`'s mutable fields: the requested and assigned port numbers
(both initialised to the constructor's `portNo`), whether the HTTP server
is listening, and — once `start` has installed the catch-all route — the
template being served together with its per-session file cache.  The
caller-supplied `data` argument of `start` is bound to no route (no data
endpoint exists), so it does not appear in the state. -/
structure WebServerState where
  requestedPortNo : ℕ
  assignedPortNo : ℕ
  listening : Bool
  template : Option TemplateModel
  fileCache : List (String × String)

namespace WebServer

/-- Embeds `new WebServer(portNo)` (src/web-server.ts constructor): both port
fields are set to `portNo`; no server exists yet. -/
def new (portNo : ℕ) : WebServerState :=
  { requestedPortNo := portNo
    assignedPortNo := portNo
    listening := false
    template := none
    fileCache := [] }

/-- Embeds `WebServer.getUrl` (src/web-server.ts lines 95-97):
`"http://127.0.0.1:" + this.assignedPortNo`. -/
def getUrl (st : WebServerState) : String :=
  "http://127.0.0.1:" ++ toString st.assignedPortNo

/-- Embeds `WebServer.start` (src/web-server.ts lines 121-155).  Installs the
catch-all route over `template` with a fresh `fileCache`, then listens on
`requestedPortNo` at `127.0.0.1`.  `bindResult` is the operating system's
answer to the bind: `some p` means the listening socket was bound to port
`p` (for a requested port `0` the OS picks an ephemeral port), `none`
means `listen` failed.  On success `assignedPortNo` is overwritten with
`server.address().port`.  The `data` parameter is accepted but never used:
no route reads it and no data endpoint is registered. -/
def start {Data : Type} (st : WebServerState) (_data : Data)
    (template : TemplateModel) (bindResult : Option ℕ) :
    WebServerState × Except String Unit :=
  let st1 := { st with template := some template, fileCache := [] }
  match bindResult with
  | none => (st1, .error "listen failed")
  | some boundPort =>
    ({ st1 with assignedPortNo := boundPort, listening := true }, .ok ())

/-- Serving one inbound GET against a started server: dispatch to the
catch-all handler and thread the file cache through the state. -/
def serve (st : WebServerState) (requestUrl : String) :
    HttpResponse × WebServerState :=
  match st.template with
  | none => (.notFound, st)
  | some template =>
    let (response, cache', _) := handleRequest template st.fileCache requestUrl
    (response, { st with fileCache := cache' })

/-- Embeds `WebServer.stop` (src/web-server.ts lines 160-173): `server.close`
unbinds the socket; `this.server = null`. -/
def stop (st : WebServerState) : WebServerState :=
  { st with listening := false, template := none }

end WebServer

/-! ## Template web server (`TemplateWebServer`, src/template-web-server.ts) -/

/-- Outcome of reading and parsing `template.json` (the `try` block of
`TemplateWebServer.start`): the file may be missing or unreadable
(`fs.readFile` rejects), its content may fail `JSON.parse`, or parsing
succeeds with a configuration object. -/
inductive ConfigArtifact where
  | missing
  | unparsable
  | parsed (config : RenderOptions)
  deriving DecidableEq, Repr

/-- Errors surfaced by `TemplateWebServer.start`. -/
inductive LoadTemplateError where
  /-- Error `Template web server is already started. Please end the previous session ...` -/
  | alreadyStarted
  /-- Error `Template configuration file 'template.json' was not found in the template directory ...` -/
  | configNotFound
  /-- Error `... Please set 'waitSelector' to a valid CSS selector ...` -/
  | configInvalid
  /-- The web server's `listen` rejected. -/
  | serverBindError
  deriving DecidableEq, Repr

/-- Embeds `TemplateWebServer`'s mutable fields: the parsed template configuration
(`null` until `start` succeeds in parsing it) and the owned `WebServer`
instance (`null` until one is constructed). -/
structure TemplateWebServerState where
  templateConfig : Option RenderOptions
  webServer : Option WebServerState

namespace TemplateWebServer

/-- A fresh `TemplateWebServer`: both fields `null`. -/
def new : TemplateWebServerState :=
  { templateConfig := none, webServer := none }

/-- Embeds `TemplateWebServer.start` (src/template-web-server.ts lines 244-269).
Rejects when already started; reads and parses `template.json`
(**assigning `this.templateConfig` before validating it**); validates
`waitSelector` with `!config.waitSelector || typeof(config.waitSelector)
!== "string"`; only then inflates the template (external, modelled by the
`template` argument) and constructs and starts the `WebServer` —
`this.webServer` is assigned before `start` is awaited, so a bind failure
leaves the non-listening instance in place. -/
def start {Data : Type} (st : TemplateWebServerState)
    (artifact : ConfigArtifact) (data : Data) (template : TemplateModel)
    (port : ℕ) (bindResult : Option ℕ) :
    TemplateWebServerState × Except LoadTemplateError Unit :=
  if st.templateConfig.isSome then
    (st, .error .alreadyStarted)
  else
    match artifact with
    | .missing => (st, .error .configNotFound)
    | .unparsable => (st, .error .configNotFound)
    | .parsed config =>
      let st1 := { st with templateConfig := some config }
      if !config.waitSelector.truthy || !config.waitSelector.isString then
        (st1, .error .configInvalid)
      else
        let ws0 := WebServer.new port
        match WebServer.start ws0 data template bindResult with
        | (ws1, .error _) => ({ st1 with webServer := some ws1 }, .error .serverBindError)
        | (ws1, .ok ()) => ({ st1 with webServer := some ws1 }, .ok ())

/-- Embeds `TemplateWebServer.getUrl` (src/template-web-server.ts):
`this.webServer!.getUrl()`; `none` models the `TypeError` raised by the
non-null assertion when no web server exists. -/
def getUrl (st : TemplateWebServerState) : Option String :=
  st.webServer.map WebServer.getUrl

/-- Embeds `TemplateWebServer.getTemplateConfig` (src/template-web-server.ts):
throws `Template web server is not started` when `templateConfig` is
`null`, otherwise returns it. -/
def getTemplateConfig (st : TemplateWebServerState) :
    Except RenderError RenderOptions :=
  match st.templateConfig with
  | none => .error .usageWebServerNotStarted
  | some config => .ok config

/-- Embeds `TemplateWebServer.end` (src/template-web-server.ts): clears the
configuration and stops and clears the web server if one exists. -/
def «end» (_st : TemplateWebServerState) : TemplateWebServerState :=
  { templateConfig := none, webServer := none }

end TemplateWebServer

/-! ## Event-loop model of `TemplateRenderer.loadTemplate` re-loading

`TemplateRenderer.loadTemplate` (src/template-renderer.ts) reads:

```
async loadTemplate(data, templatePath, port) {
    this.unloadTemplate();                                // NOT awaited
    this.templateWebServer = new TemplateWebServer(...);
    await this.templateWebServer.start(data, templatePath, port);
}
async unloadTemplate() {
    if (this.templateWebServer) {
        await this.templateWebServer.end();               // end() awaits webServer.stop()
        this.templateWebServer = null;
    }
}
```

The call `this.unloadTemplate()` is not awaited, so only its synchronous
prefix runs before `loadTemplate` continues: the old template web server's
`end()` initiates `server.close()` and suspends.  The rest of
`unloadTemplate` — including the unconditional `this.templateWebServer =
null` — runs only when the close completes, as a continuation racing the
remainder of `loadTemplate`.  The machine below embeds this control flow:
the main task's suspension points (config read, template inflation, socket
bind) are events that must occur in program order, while the close
completion may be delivered at any point after close initiation,
reflecting that `server.close` waits for in-flight connections. -/

/-- Lifecycle of one asset server's listening socket: `listening` (bound,
accepting), `closing` (`server.close()` called, socket still bound until
the close callback fires), `closed` (unbound). -/
inductive SrvStatus where
  | listening
  | closing
  | closed
  deriving DecidableEq, Repr

/-- Value of the orchestrator's `this.templateWebServer` field during a
re-load: the previously loaded instance, the newly constructed instance,
or `null`. -/
inductive TwsRef where
  | oldTws
  | newTws
  | nullRef
  deriving DecidableEq, Repr

/-- World state during `loadTemplate` called while a template is loaded:
the old asset server's socket, whether the new asset server has bound its
socket, the orchestrator's `templateWebServer` field, the main task's
program counter (0 = `loadTemplate` not yet invoked, 1 = awaiting the
config read, 2 = awaiting template inflation, 3 = awaiting the new bind,
4 = `loadTemplate` resolved), and whether the tail of the un-awaited
`unloadTemplate` is still pending delivery. -/
structure ReloadWorld where
  oldServer : SrvStatus
  newServerBound : Bool
  templateWebServerField : TwsRef
  mainPC : ℕ
  unloadContinuationPending : Bool
  deriving DecidableEq, Repr

/-- Events of the re-load execution: the initial synchronous segment of
`loadTemplate`, the three I/O completions of the main task in program
order, and the completion of the old server's `close`. -/
inductive JsEvent where
  | callLoadTemplate
  | readConfigDone
  | inflateDone
  | bindDone
  | oldCloseDone
  deriving DecidableEq, Repr

/-- One event-loop step.  `callLoadTemplate` runs the synchronous segment:
`unloadTemplate`'s prefix sees the old instance, its `end()` initiates the
old `server.close()` and suspends (registering the continuation), then
`loadTemplate` assigns the new `TemplateWebServer` and suspends inside
`start` at the config read.  `oldCloseDone` delivers the continuation:
`end()` finishes, and `unloadTemplate` resumes with
`this.templateWebServer = null`, unconditionally overwriting the field —
which by then holds the NEW instance. -/
def reloadStep (w : ReloadWorld) : JsEvent → ReloadWorld
  | .callLoadTemplate =>
    if w.mainPC = 0 && w.templateWebServerField = .oldTws
        && w.oldServer = .listening then
      { w with oldServer := .closing
               unloadContinuationPending := true
               templateWebServerField := .newTws
               mainPC := 1 }
    else w
  | .readConfigDone => if w.mainPC = 1 then { w with mainPC := 2 } else w
  | .inflateDone => if w.mainPC = 2 then { w with mainPC := 3 } else w
  | .bindDone =>
    if w.mainPC = 3 then { w with newServerBound := true, mainPC := 4 } else w
  | .oldCloseDone =>
    if w.oldServer = .closing && w.unloadContinuationPending then
      { w with oldServer := .closed
               unloadContinuationPending := false
               templateWebServerField := .nullRef }
    else w

/-- Run a sequence of event-loop events. -/
def reloadRun (w : ReloadWorld) : List JsEvent → ReloadWorld
  | [] => w
  | e :: es => reloadRun (reloadStep w e) es

/-- Initial world: a template is loaded (old asset server listening, the
orchestrator's field references it), `loadTemplate` about to be called. -/
def reloadInit : ReloadWorld :=
  { oldServer := .listening
    newServerBound := false
    templateWebServerField := .oldTws
    mainPC := 0
    unloadContinuationPending := false }


/-! ## Orchestrator (`TemplateRenderer`, src/template-renderer.ts) -/

/-- Embeds `TemplateRenderer`'s mutable fields: the owned browser driver
(`null` until `start`) and the owned template web server (`null` until
`loadTemplate`). -/
structure TemplateRendererState where
  webPageRenderer : Option WebPageRendererState
  templateWebServer : Option TemplateWebServerState

namespace TemplateRenderer

/-- Embeds `TemplateRenderer.preRenderCheck` (src/template-renderer.ts): usage
errors when the driver was never started or no template is loaded. -/
def preRenderCheck (st : TemplateRendererState) : Except RenderError Unit :=
  if st.webPageRenderer.isNone then
    .error .usageRendererNotStarted
  else if st.templateWebServer.isNone then
    .error .usageNoTemplateLoaded
  else
    .ok ()

/-- Embeds `TemplateRenderer.renderImage` (src/template-renderer.ts): after
`preRenderCheck`, delegates to
`webPageRenderer.renderImage(templateWebServer.getUrl(), outputFilePath,
templateWebServer.getTemplateConfig())`.  The precondition failure paths
issue no browser action and leave every state record untouched. -/
def renderImage (st : TemplateRendererState) (outputFilePath : String)
    (page : Page) : List BrowserAction × Except RenderError Unit :=
  match st.webPageRenderer with
  | none => ([], .error .usageRendererNotStarted)
  | some wpr =>
    match st.templateWebServer with
    | none => ([], .error .usageNoTemplateLoaded)
    | some tws =>
      match TemplateWebServer.getUrl tws with
      | none => ([], .error .webServerNullCrash)
      | some url =>
        match TemplateWebServer.getTemplateConfig tws with
        | .error e => ([], .error e)
        | .ok config => WebPageRenderer.renderImage wpr url outputFilePath config page

/-- Embeds `TemplateRenderer.renderPDF` (src/template-renderer.ts): same shape as
`renderImage`, delegating to `webPageRenderer.renderPDF`. -/
def renderPDF (st : TemplateRendererState) (outputFilePath : String)
    (page : Page) : List BrowserAction × Except RenderError Unit :=
  match st.webPageRenderer with
  | none => ([], .error .usageRendererNotStarted)
  | some wpr =>
    match st.templateWebServer with
    | none => ([], .error .usageNoTemplateLoaded)
    | some tws =>
      match TemplateWebServer.getUrl tws with
      | none => ([], .error .webServerNullCrash)
      | some url =>
        match TemplateWebServer.getTemplateConfig tws with
        | .error e => ([], .error e)
        | .ok config => WebPageRenderer.renderPDF wpr url outputFilePath config page

end TemplateRenderer

/-! ## Concrete instances used by witnesses and counterexamples -/

/-- Concrete page used by witnesses: an 800×600 body whose every selector
matches an element with fractional client rectangle
(left 10.5, top 20.25, right 110.5, bottom 220.75). -/
def witnessPage : Page :=
  { bodyScrollWidth := 800
    bodyScrollHeight := 600
    present := fun _ => true
    rectAt := fun _ _ _ => { left := 21/2, top := 81/4, right := 221/2, bottom := 883/4 } }

/-- Template model with no files at all. -/
def emptyTemplate : TemplateModel :=
  { find := fun _ => none, expand := fun _ => "" }

/-- Template model whose only file, `index.html`, expands to the empty
string. -/
def emptyIndexTemplate : TemplateModel :=
  { find := fun p => if p = "index.html" then some 0 else none
    expand := fun _ => "" }

/-- Template model whose only file, `index.html`, expands to `hello`. -/
def helloTemplate : TemplateModel :=
  { find := fun p => if p = "index.html" then some 0 else none
    expand := fun _ => "hello" }

/-- Classification of configuration artifacts rejected by
`TemplateWebServer.start`: a missing or unparsable `template.json`, or a
parsed one whose `waitSelector` is falsy or not a string. -/
def configRejected : ConfigArtifact → Bool
  | .missing => true
  | .unparsable => true
  | .parsed config => !config.waitSelector.truthy || !config.waitSelector.isString

/-! ## Claim theorems -/

/-- C1.  For every image render with a started driver and a set (truthy)
`waitSelector`, with the wait selector and the effective capture selector
both matching elements, `renderImage` first measures the document body's
scroll width/height, resizes the viewport to exactly that size, and only
then measures the bounding rectangle of the element matched by
`captureSelector` (or `waitSelector` when absent) — viewport sizing
strictly between the two measurements — with each rectangle component
rounded up to the nearest whole pixel (`cropOf` takes the ceiling of
left, top, width and height), and finally captures a screenshot cropped
to that rectangle written to the output path. -/
theorem renderImage_two_phase_measure (st : WebPageRendererState)
    (url out : String) (options : RenderOptions) (page : Page)
    (hstart : st.nightmareInstantiated = true)
    (hws : options.waitSelector.truthy = true)
    (hpres : page.present options.waitSelector = true)
    (hcap : page.present (options.captureSelector.jsOr options.waitSelector) = true) :
    WebPageRenderer.renderImage st url out options page =
      ([.goto url, .wait options.waitSelector,
        .evalBodySize page.bodyScrollWidth page.bodyScrollHeight,
        .setViewport page.bodyScrollWidth page.bodyScrollHeight,
        .evalRect (options.captureSelector.jsOr options.waitSelector)
          (cropOf (page.rectAt page.bodyScrollWidth page.bodyScrollHeight
            (options.captureSelector.jsOr options.waitSelector))),
        .screenshot out
          (cropOf (page.rectAt page.bodyScrollWidth page.bodyScrollHeight
            (options.captureSelector.jsOr options.waitSelector)))],
       .ok ()) := by
  unfold WebPageRenderer.renderImage WebPageRenderer.preRenderCheck
  simp [hstart, hws, hpres, hcap]

/-- C1 witness: a concrete render against `witnessPage`.  The fractional
rectangle (10.5, 20.25) – (110.5, 220.75) is rounded up to
x = 11, y = 21, width = 100, height = 201. -/
theorem renderImage_two_phase_measure_witness :
    WebPageRenderer.renderImage ⟨true⟩ "http://127.0.0.1:4000" "out/test.png"
      ⟨.string "#chart", .undef⟩ witnessPage =
      ([.goto "http://127.0.0.1:4000", .wait (.string "#chart"),
        .evalBodySize 800 600, .setViewport 800 600,
        .evalRect (.string "#chart") ⟨11, 21, 201, 100⟩,
        .screenshot "out/test.png" ⟨11, 21, 201, 100⟩], .ok ()) := by
  have h := renderImage_two_phase_measure ⟨true⟩ "http://127.0.0.1:4000"
    "out/test.png" ⟨.string "#chart", .undef⟩ witnessPage
    rfl (by decide) (by decide) (by decide)
  rw [h]
  have hc : cropOf (witnessPage.rectAt witnessPage.bodyScrollWidth
      witnessPage.bodyScrollHeight
      (((⟨.string "#chart", .undef⟩ : RenderOptions)).captureSelector.jsOr
        ((⟨.string "#chart", .undef⟩ : RenderOptions)).waitSelector)) =
      ⟨11, 21, 201, 100⟩ := by
    unfold witnessPage cropOf
    norm_num
    refine ⟨?_, ?_, ?_⟩ <;> rw [Int.ceil_eq_iff] <;> norm_num
  rw [hc]
  rfl

/-- C2.  For every PDF render, the output is generated via `nightmare.pdf`
with landscape orientation, page size exactly 297000 by 210000 micrometers
and zero margins (`marginsType 0`), and the `captureSelector` option is
never consulted: two option objects differing only in `captureSelector`
produce identical results. -/
theorem renderPDF_fixed_geometry_ignores_captureSelector
    (st : WebPageRendererState) (url out : String) (ws cs cs' : JsVal)
    (page : Page) :
    WebPageRenderer.renderPDF st url out ⟨ws, cs⟩ page =
      WebPageRenderer.renderPDF st url out ⟨ws, cs'⟩ page
    ∧ (st.nightmareInstantiated = true → ws.truthy = true →
       page.present ws = true →
       WebPageRenderer.renderPDF st url out ⟨ws, cs⟩ page =
         ([.goto url, .wait ws,
           .evalBodySize page.bodyScrollWidth page.bodyScrollHeight,
           .setViewport page.bodyScrollWidth page.bodyScrollHeight,
           .pdf out 0 297000 210000 true], .ok ())) := by
  constructor
  · rfl
  · intro h1 h2 h3
    unfold WebPageRenderer.renderPDF WebPageRenderer.preRenderCheck
    simp [h1, h2, h3]

/-- C2 witness: a concrete PDF render with an exotic `captureSelector`
still produces the fixed A4-landscape zero-margin geometry. -/
theorem renderPDF_fixed_geometry_witness :
    WebPageRenderer.renderPDF ⟨true⟩ "http://127.0.0.1:4000" "out/test.pdf"
      ⟨.string "#chart", .string "#other"⟩ witnessPage =
      ([.goto "http://127.0.0.1:4000", .wait (.string "#chart"),
        .evalBodySize 800 600, .setViewport 800 600,
        .pdf "out/test.pdf" 0 297000 210000 true], .ok ()) :=
  (renderPDF_fixed_geometry_ignores_captureSelector ⟨true⟩
      "http://127.0.0.1:4000" "out/test.pdf" (.string "#chart")
      (.string "#other") .undef witnessPage).2
    rfl (by decide) (by decide)

/-- C9.  For every image render where `captureSelector` is omitted from
the configuration (reads as `undefined`), the measurement script is
invoked with `waitSelector` as the capture selector and the crop rectangle
passed to the screenshot equals the (ceil-rounded) bounding rectangle of
the element matched by `waitSelector`. -/
theorem renderImage_omitted_captureSelector_uses_waitSelector
    (st : WebPageRendererState) (url out : String) (ws : JsVal) (page : Page)
    (hstart : st.nightmareInstantiated = true)
    (hws : ws.truthy = true)
    (hpres : page.present ws = true) :
    WebPageRenderer.renderImage st url out ⟨ws, .undef⟩ page =
      ([.goto url, .wait ws,
        .evalBodySize page.bodyScrollWidth page.bodyScrollHeight,
        .setViewport page.bodyScrollWidth page.bodyScrollHeight,
        .evalRect ws
          (cropOf (page.rectAt page.bodyScrollWidth page.bodyScrollHeight ws)),
        .screenshot out
          (cropOf (page.rectAt page.bodyScrollWidth page.bodyScrollHeight ws))],
       .ok ()) := by
  have hj : JsVal.jsOr .undef ws = ws := rfl
  unfold WebPageRenderer.renderImage WebPageRenderer.preRenderCheck
  simp [hj, hstart, hws, hpres]

/-- C9 witness: concrete render with `captureSelector` omitted measures
the `#chart` element designated by `waitSelector`. -/
theorem renderImage_omitted_captureSelector_witness :
    WebPageRenderer.renderImage ⟨true⟩ "http://127.0.0.1:4000" "out/test.png"
      ⟨.string "#chart", .undef⟩ witnessPage =
      ([.goto "http://127.0.0.1:4000", .wait (.string "#chart"),
        .evalBodySize 800 600, .setViewport 800 600,
        .evalRect (.string "#chart")
          (cropOf (witnessPage.rectAt 800 600 (.string "#chart"))),
        .screenshot "out/test.png"
          (cropOf (witnessPage.rectAt 800 600 (.string "#chart")))], .ok ()) :=
  renderImage_omitted_captureSelector_uses_waitSelector ⟨true⟩
    "http://127.0.0.1:4000" "out/test.png" (.string "#chart") witnessPage
    rfl (by decide) (by decide)

/-- C10.  For every image render where `captureSelector` is present but
falsy (in particular the empty string), the driver behaves exactly as if
it were omitted, because the fallback
`options.captureSelector || options.waitSelector` uses truthiness rather
than an absence check. -/
theorem renderImage_falsy_captureSelector_as_omitted
    (st : WebPageRendererState) (url out : String) (ws cs : JsVal)
    (page : Page) (hcs : cs.truthy = false) :
    WebPageRenderer.renderImage st url out ⟨ws, cs⟩ page =
      WebPageRenderer.renderImage st url out ⟨ws, .undef⟩ page := by
  have hj : ∀ b : JsVal, JsVal.jsOr cs b = b := by
    intro b
    unfold JsVal.jsOr
    simp [hcs]
  have hj' : ∀ b : JsVal, JsVal.jsOr .undef b = b := fun _ => rfl
  unfold WebPageRenderer.renderImage WebPageRenderer.preRenderCheck
  simp only [hj, hj']

/-- C10 witness: the empty-string `captureSelector` renders identically to
the omitted one. -/
theorem renderImage_falsy_captureSelector_witness :
    WebPageRenderer.renderImage ⟨true⟩ "http://127.0.0.1:4000" "out/test.png"
      ⟨.string "#chart", .string ""⟩ witnessPage =
      WebPageRenderer.renderImage ⟨true⟩ "http://127.0.0.1:4000" "out/test.png"
        ⟨.string "#chart", .undef⟩ witnessPage :=
  renderImage_falsy_captureSelector_as_omitted ⟨true⟩ "http://127.0.0.1:4000"
    "out/test.png" (.string "#chart") (.string "") witnessPage (by decide)

/-- C3.  Calling `renderImage` or `renderPDF` when the driver was never
started or no template is loaded fails with the corresponding usage error
before any browser interaction: the issued browser-action trace is empty
(no navigation), and since the orchestrator's render operations return no
modified state, no resource side effect occurs. -/
theorem render_before_start_or_load_fails_fast (st : TemplateRendererState)
    (out : String) (page : Page)
    (h : st.webPageRenderer = none ∨ st.templateWebServer = none) :
    TemplateRenderer.renderImage st out page =
      ([], .error (if st.webPageRenderer.isNone then .usageRendererNotStarted
                   else .usageNoTemplateLoaded))
    ∧ TemplateRenderer.renderPDF st out page =
      ([], .error (if st.webPageRenderer.isNone then .usageRendererNotStarted
                   else .usageNoTemplateLoaded)) := by
  obtain ⟨wpr, tws⟩ := st
  rcases h with h | h
  · simp only at h
    subst h
    exact ⟨rfl, rfl⟩
  · simp only at h
    subst h
    cases wpr with
    | none => exact ⟨rfl, rfl⟩
    | some w => exact ⟨rfl, rfl⟩

/-- C3 witness: a fresh orchestrator (never started, nothing loaded)
rejects both render operations with a usage error and an empty action
trace. -/
theorem render_before_start_witness :
    TemplateRenderer.renderImage ⟨none, none⟩ "out/test.png" witnessPage =
      ([], .error .usageRendererNotStarted)
    ∧ TemplateRenderer.renderPDF ⟨none, none⟩ "out/test.png" witnessPage =
      ([], .error .usageRendererNotStarted) :=
  render_before_start_or_load_fails_fast ⟨none, none⟩ "out/test.png"
    witnessPage (Or.inl rfl)

/-- C4 counterexample.  The claim states that after a configuration
failure no partial state is left; but starting a fresh template web server
on a `template.json` that parses to an object without `waitSelector`
fails with the configuration error while leaving the parsed configuration
stored in `templateConfig` (the assignment happens before validation), so
the state is not the fresh one. -/
theorem loadTemplate_invalid_config_keeps_parsed_config :
    (TemplateWebServer.start TemplateWebServer.new
        (.parsed ⟨.undef, .undef⟩) JsVal.undef emptyTemplate 0 (some 4000)).2
      = .error .configInvalid
    ∧ (TemplateWebServer.start TemplateWebServer.new
        (.parsed ⟨.undef, .undef⟩) JsVal.undef emptyTemplate 0 (some 4000)).1.templateConfig
      = some ⟨.undef, .undef⟩
    ∧ some (⟨.undef, .undef⟩ : RenderOptions) ≠ TemplateWebServer.new.templateConfig :=
  ⟨rfl, rfl, by unfold TemplateWebServer.new; simp⟩

/-- C4 (amended).  For every fresh template web server and every rejected
configuration artifact (missing, unreadable/unparsable, or with a missing,
empty or non-string `waitSelector`), `start` fails with a configuration
error and allocates no server resource: the `webServer` field is untouched
(no web server is created, let alone bound).  However, when the artifact
parses and only the `waitSelector` validation fails, the parsed
configuration remains stored in `templateConfig`. -/
theorem loadTemplate_config_error_allocates_no_server {Data : Type}
    (st : TemplateWebServerState) (artifact : ConfigArtifact) (data : Data)
    (template : TemplateModel) (port : ℕ) (bindResult : Option ℕ)
    (hfresh : st.templateConfig = none)
    (hbad : configRejected artifact = true) :
    ((TemplateWebServer.start st artifact data template port bindResult).2
        = .error .configNotFound
      ∨ (TemplateWebServer.start st artifact data template port bindResult).2
        = .error .configInvalid)
    ∧ (TemplateWebServer.start st artifact data template port bindResult).1.webServer
        = st.webServer
    ∧ (TemplateWebServer.start st artifact data template port bindResult).1.templateConfig
        = (match artifact with
           | .parsed config => some config
           | _ => none) := by
  unfold TemplateWebServer.start
  cases artifact with
  | missing => simp [hfresh]
  | unparsable => simp [hfresh]
  | parsed config =>
    simp only [configRejected] at hbad
    simp [hfresh, hbad]

/-- C4 witness: a configuration whose `waitSelector` is the number 5
(truthy but not a string) is rejected with `configInvalid` and no web
server is created. -/
theorem loadTemplate_config_error_witness :
    configRejected (.parsed ⟨.number 5, .undef⟩) = true
    ∧ (((TemplateWebServer.start TemplateWebServer.new
          (.parsed ⟨.number 5, .undef⟩) JsVal.undef emptyTemplate 0 (some 4000)).2
          = .error .configNotFound
        ∨ (TemplateWebServer.start TemplateWebServer.new
          (.parsed ⟨.number 5, .undef⟩) JsVal.undef emptyTemplate 0 (some 4000)).2
          = .error .configInvalid)
      ∧ (TemplateWebServer.start TemplateWebServer.new
          (.parsed ⟨.number 5, .undef⟩) JsVal.undef emptyTemplate 0 (some 4000)).1.webServer
          = TemplateWebServer.new.webServer
      ∧ (TemplateWebServer.start TemplateWebServer.new
          (.parsed ⟨.number 5, .undef⟩) JsVal.undef emptyTemplate 0 (some 4000)).1.templateConfig
          = some ⟨.number 5, .undef⟩) :=
  ⟨by decide,
   loadTemplate_config_error_allocates_no_server TemplateWebServer.new
     (.parsed ⟨.number 5, .undef⟩) JsVal.undef emptyTemplate 0 (some 4000)
     rfl (by decide)⟩

/-- C5.  Evaluation of the re-load event machine at the schedule where the
old asset server's `close` completes only after the new server has bound
(a realizable schedule, since `server.close` waits for in-flight
connections).  Because `loadTemplate` does not await `unloadTemplate()`:
(a) once `loadTemplate` has resolved (`mainPC = 4`, new server bound), the
old server is still only `closing` — its socket is still bound, so two
asset servers of one session are simultaneously active, contradicting the
claim that the previous server is stopped before the new one starts; and
(b) when the old close finally completes, the deferred tail of
`unloadTemplate` sets `this.templateWebServer = null`, clearing the
reference to the NEW template web server even though `loadTemplate`
succeeded. -/
theorem loadTemplate_does_not_await_unload :
    ((reloadRun reloadInit
        [.callLoadTemplate, .readConfigDone, .inflateDone, .bindDone]).oldServer
        = .closing
      ∧ (reloadRun reloadInit
        [.callLoadTemplate, .readConfigDone, .inflateDone, .bindDone]).newServerBound
        = true
      ∧ (reloadRun reloadInit
        [.callLoadTemplate, .readConfigDone, .inflateDone, .bindDone]).mainPC = 4)
    ∧ ((reloadRun reloadInit
        [.callLoadTemplate, .readConfigDone, .inflateDone, .bindDone, .oldCloseDone]).templateWebServerField
        = .nullRef
      ∧ (reloadRun reloadInit
        [.callLoadTemplate, .readConfigDone, .inflateDone, .bindDone, .oldCloseDone]).newServerBound
        = true) := by
  decide

/-- C6.  For every fresh template web server and valid configuration,
a successful `start` (the model of `loadTemplate`) followed immediately by
`getUrl` returns `http://127.0.0.1:` concatenated with the port the
listening socket was actually bound to — for every requested port,
including 0 (auto-assign) — and the `assignedPortNo` recorded after bind
equals that bound port. -/
theorem loadTemplate_getUrl_returns_bound_port {Data : Type}
    (st : TemplateWebServerState) (config : RenderOptions) (data : Data)
    (template : TemplateModel) (port boundPort : ℕ)
    (hfresh : st.templateConfig = none)
    (hws : config.waitSelector.truthy = true)
    (hstr : config.waitSelector.isString = true) :
    (TemplateWebServer.start st (.parsed config) data template port (some boundPort)).2
      = .ok ()
    ∧ TemplateWebServer.getUrl
        (TemplateWebServer.start st (.parsed config) data template port (some boundPort)).1
      = some ("http://127.0.0.1:" ++ toString boundPort)
    ∧ ((TemplateWebServer.start st (.parsed config) data template port (some boundPort)).1.webServer.map
        WebServerState.assignedPortNo) = some boundPort := by
  unfold TemplateWebServer.start TemplateWebServer.getUrl WebServer.start
    WebServer.new WebServer.getUrl
  simp [hfresh, hws, hstr]

/-- C6 witness: requesting port 0 (auto-assign) and getting OS port 51234
back yields the URL `http://127.0.0.1:51234`. -/
theorem loadTemplate_getUrl_witness :
    (TemplateWebServer.start TemplateWebServer.new
        (.parsed ⟨.string "#chart", .undef⟩) JsVal.undef helloTemplate 0 (some 51234)).2
      = .ok ()
    ∧ TemplateWebServer.getUrl
        (TemplateWebServer.start TemplateWebServer.new
          (.parsed ⟨.string "#chart", .undef⟩) JsVal.undef helloTemplate 0 (some 51234)).1
      = some "http://127.0.0.1:51234"
    ∧ ((TemplateWebServer.start TemplateWebServer.new
        (.parsed ⟨.string "#chart", .undef⟩) JsVal.undef helloTemplate 0 (some 51234)).1.webServer.map
        WebServerState.assignedPortNo) = some 51234 :=
  loadTemplate_getUrl_returns_bound_port TemplateWebServer.new
    ⟨.string "#chart", .undef⟩ JsVal.undef helloTemplate 0 51234
    rfl (by decide) (by decide)

/-- Helper: a successful `loadTemplateFile` whose content is non-empty is
idempotent — repeating it with the resulting cache hits the cache, returns
the same content, leaves the cache unchanged and performs no expansion. -/
theorem loadTemplateFile_nonempty_idempotent (template : TemplateModel)
    (cache : List (String × String)) (url content : String)
    (cache' : List (String × String)) (n : ℕ)
    (h : WebServer.loadTemplateFile template cache url =
      .ok ⟨content, cache', n⟩)
    (h2 : content.isEmpty = false) :
    WebServer.loadTemplateFile template cache' url =
      .ok ⟨content, cache', 0⟩ := by
  unfold WebServer.loadTemplateFile WebServer.loadTemplateFileExpand at h ⊢
  split at h
  case h_1 c0 hlk =>
    split at h
    case isTrue hne =>
      simp only [Except.ok.injEq, LoadOutcome.mk.injEq] at h
      obtain ⟨hc, hcache, -⟩ := h
      subst hc
      subst hcache
      simp [hlk, h2]
    case isFalse hne =>
      split at h
      case h_1 hf => exact Except.noConfusion h
      case h_2 fh hf =>
        simp only [Except.ok.injEq, LoadOutcome.mk.injEq] at h
        obtain ⟨hc, hcache, -⟩ := h
        subst hc
        subst hcache
        simp [h2]
  case h_2 hlk =>
    split at h
    case h_1 hf => exact Except.noConfusion h
    case h_2 fh hf =>
      simp only [Except.ok.injEq, LoadOutcome.mk.injEq] at h
      obtain ⟨hc, hcache, -⟩ := h
      subst hc
      subst hcache
      simp [h2]

/-- C7 counterexample.  The claim states the expansion for a path is
computed at most once per session; but for a file whose expansion is the
empty string the truthiness-based cache check (`if (cachedFileContent)`)
treats the stored entry as absent, so a second GET to `/` expands
`index.html` again: both requests perform one expansion each. -/
theorem assetServer_empty_expansion_recomputed :
    (WebServer.handleRequest emptyIndexTemplate [] "/").2.2 = 1
    ∧ (WebServer.handleRequest emptyIndexTemplate
        (WebServer.handleRequest emptyIndexTemplate [] "/").2.1 "/").2.2 = 1 :=
  ⟨rfl, rfl⟩

/-- C7 (amended).  A GET to `/` is served as the path `index.html`, and
for every path whose successful response content is non-empty the
expansion is computed at most once: a repeated GET for the same path
returns the cached content — identical to the first response — with the
cache unchanged and no further expansion.  (A path expanding to the empty
string is re-expanded on every request, because the cache check uses
JavaScript truthiness.) -/
theorem assetServer_memoizes_nonempty_expansion (template : TemplateModel)
    (cache : List (String × String)) (requestUrl content : String)
    (h1 : (WebServer.handleRequest template cache requestUrl).1 =
      .content content)
    (h2 : content.isEmpty = false) :
    WebServer.handleRequest template
        (WebServer.handleRequest template cache requestUrl).2.1 requestUrl
      = (.content content,
         (WebServer.handleRequest template cache requestUrl).2.1, 0)
    ∧ (∀ c : List (String × String),
        WebServer.handleRequest template c "/" =
          WebServer.handleRequest template c "index.html") := by
  have hreq : ∀ (c : List (String × String)) (u : String),
      WebServer.handleRequest template c u =
        match WebServer.loadTemplateFile template c
            (if u = "/" then "index.html" else u) with
        | .ok out => (.content out.content, out.cache, out.expandCount)
        | .error _ => (.notFound, c, 0) := fun _ _ => rfl
  constructor
  · rw [hreq] at h1
    cases hload : WebServer.loadTemplateFile template cache
        (if requestUrl = "/" then "index.html" else requestUrl) with
    | error e => rw [hload] at h1; exact absurd h1 (by simp)
    | ok out =>
      obtain ⟨c, cache', n⟩ := out
      rw [hload] at h1
      simp only [HttpResponse.content.injEq] at h1
      subst h1
      have hsnd : (WebServer.handleRequest template cache requestUrl).2.1
          = cache' := by
        rw [hreq, hload]
      rw [hsnd, hreq]
      rw [loadTemplateFile_nonempty_idempotent template cache
        (if requestUrl = "/" then "index.html" else requestUrl) c cache' n
        hload h2]
  · intro c
    rw [hreq, hreq]
    norm_num

/-- C7 witness: serving `/` from a template whose `index.html` expands to
`hello` caches the expansion; a second GET returns `hello` from the cache
with no further expansion. -/
theorem assetServer_memoization_witness :
    (WebServer.handleRequest helloTemplate [] "/").1 = .content "hello"
    ∧ WebServer.handleRequest helloTemplate
        (WebServer.handleRequest helloTemplate [] "/").2.1 "/"
      = (.content "hello", (WebServer.handleRequest helloTemplate [] "/").2.1, 0) :=
  ⟨rfl,
   (assetServer_memoizes_nonempty_expansion helloTemplate [] "/" "hello"
     rfl rfl).1⟩

/-- C8 (code evaluation).  The web server registers no data endpoint: the
caller-supplied data object is ignored by `start` (two servers started
with different data are identical in every observable respect), and a GET
to any would-be data endpoint path, here `/chart-data`, falls through to
the catch-all template route and answers 404 when the file tree lacks
that file — it never returns the data serialized as JSON. -/
theorem webServer_serves_no_data_endpoint :
    (WebServer.serve
        (WebServer.start (WebServer.new 0) (JsVal.string "Hello computer")
          helloTemplate (some 4000)).1 "/chart-data").1
      = HttpResponse.notFound
    ∧ WebServer.start (WebServer.new 0) (JsVal.string "Hello computer")
        helloTemplate (some 4000)
      = WebServer.start (WebServer.new 0) (JsVal.number 42)
        helloTemplate (some 4000) :=
  ⟨rfl, rfl⟩

end CaptureTemplate
